import Mathlib

/-!
Shallow embedding of the transcription orchestration core of the
`voice_to_text` repository (`src/transcriber.py`), together with theorems
settling the specification claims about it.

Modelling conventions:
* Python floats holding prices and thresholds are modelled as `ℚ`.
* Timestamps (`datetime.now()`, `cache["last_checked"]`) are modelled as
  integer seconds; `timedelta(days=7)` becomes `7 * 86400` seconds.
* The module-global mutable state (`_cached_api_price`, the persisted
  `price_cache.json` file, `_cached_local_model`, `_cached_model_params`)
  is threaded explicitly through state records.
* External collaborators are oracles supplied as parameters: the
  connectivity probe and key presence are booleans in an environment
  record, the OpenAI price lookup is a `LookupResult` (its regex + float
  parsing of the LLM reply is abstracted to the resulting `Option ℚ`
  candidate, faithful to `re.search(r"(\d+\.?\d*)", text)` followed by
  `float`), the remote Whisper call is an `Except String String`
  (exception text or transcribed text), and the local faster-whisper
  model call is a function from the exact call the code makes
  (model handle, audio path, language, VAD settings) to a segment list.
* `status(...)` callbacks are modelled as an accumulated list of
  `StatusMsg` values, one constructor per distinct message in the source.
* Wall-clock `elapsed` timing of `transcribe_audio` is not modelled (no
  claim concerns it).
-/

namespace VoiceToText

/-- `DEFAULT_PRICE = 0.006` in `transcriber.py`. -/
def DEFAULT_PRICE : ℚ := mkRat 6 1000

/-- `PRICE_CHECK_INTERVAL_DAYS = 7`, expressed in seconds
(`timedelta(days=7)`). -/
def PRICE_CHECK_INTERVAL_SECS : ℤ := 7 * 86400

/-- Default of `WARN_PRICE_PER_MINUTE` (env override defaults to 0.01). -/
def WARN_PRICE_DEFAULT : ℚ := mkRat 1 100

/-- Default of `BLOCK_PRICE_PER_MINUTE` (env override defaults to 0.1). -/
def BLOCK_PRICE_DEFAULT : ℚ := mkRat 1 10

/-! ### Python `:.Nf` fixed-point formatting

Python's `f"{x:.3f}"` rounds to the given number of decimals with
round-half-to-even, then prints with exactly that many fraction digits.
We model it on `ℚ`. -/

/-- `10 ^ n`, kept as primitive recursion over `ℕ`. -/
def pow10 : ℕ → ℕ
  | 0 => 1
  | n + 1 => 10 * pow10 n

/-- Round the fraction `a / b` (with `b > 0`) to the nearest integer,
ties to even (Python/IEEE rounding used by `format`). -/
def roundHalfEvenQuot (a b : ℤ) : ℤ :=
  let f : ℤ := Int.fdiv a b
  let r : ℤ := a - f * b
  if 2 * r < b then f
  else if b < 2 * r then f + 1
  else if f % 2 = 0 then f else f + 1

/-- Left-pad a digit string with zeros to length `n`. -/
def padLeftZeros (s : String) (n : ℕ) : String :=
  String.mk (List.replicate (n - s.length) '0') ++ s

/-- `f"{q:.prec f}"`: fixed-point rendering of `q` with `prec` fraction
digits, round-half-to-even: `q * 10 ^ prec` is the fraction
`q.num * 10 ^ prec / q.den` in lowest terms' sense. -/
def formatFixed (prec : ℕ) (q : ℚ) : String :=
  let n : ℤ := roundHalfEvenQuot (q.num * (pow10 prec : ℕ)) (q.den : ℕ)
  let sign : String := if n < 0 then "-" else ""
  let m : ℕ := n.natAbs
  if prec = 0 then sign ++ toString (m / pow10 prec)
  else
    sign ++ toString (m / pow10 prec) ++ "." ++
      padLeftZeros (toString (m % pow10 prec)) prec

/-! ### Status messages

One constructor per distinct `status(...)` call in `transcriber.py`;
payloads are the values interpolated into the Python f-string. -/

/-- The status messages `transcriber.py` can emit through the `status`
callback. -/
inductive StatusMsg where
  /-- "Checking API price (hasn't been checked in a week)..." -/
  | checkingPrice
  /-- `f"API price updated: ${new_price}/min"` -/
  | priceUpdated (newPrice : ℚ)
  /-- `f"Could not parse price from LLM. Using ${cached_price}/min"` -/
  | couldNotParse (cachedPrice : ℚ)
  /-- `f"Price check failed. Using ${cached_price}/min"` -/
  | priceCheckFailed (cachedPrice : ℚ)
  /-- "Transcribing via API..." -/
  | transcribingViaApi
  /-- "API failed, falling back to local..." -/
  | apiFailedFallingBack
  /-- "Transcribing locally..." -/
  | transcribingLocally
  deriving Repr, DecidableEq

/-! ### The price cache (`get_api_price`) -/

/-- A parsed `price_cache.json` entry:
`{"price_per_minute": float, "last_checked": iso-timestamp}`. -/
structure PriceCacheEntry where
  price_per_minute : ℚ
  last_checked : ℤ
  deriving Repr, DecidableEq

/-- State of the persisted `PRICE_CACHE_FILE`: missing, present but not
JSON-parseable, or a parsed entry. -/
inductive PriceFile where
  | absent
  | corrupt
  | entry (e : PriceCacheEntry)
  deriving Repr, DecidableEq

/-- The mutable state `get_api_price` reads and writes: the module global
`_cached_api_price` and the persisted cache file. -/
structure PriceState where
  cachedApiPrice : Option ℚ
  file : PriceFile
  deriving Repr, DecidableEq

/-- Outcome of the LLM price lookup
(`client.chat.completions.create(...)` plus the regex/float parse of its
reply): the call raises, or returns a reply whose parse yields `none`
(no numeric match) or `some candidate`. -/
inductive LookupResult where
  | raises
  | reply (parsed : Option ℚ)
  deriving Repr, DecidableEq

/-- Environment for one `get_api_price` call: `OPENAI_API_KEY` presence,
`has_internet()`, `datetime.now()` in seconds, and the lookup oracle. -/
structure PriceEnv where
  hasApiKey : Bool
  hasInternet : Bool
  now : ℤ
  lookup : LookupResult
  deriving Repr, DecidableEq

/-- What one `get_api_price` call returns and does: the returned price,
the updated state, the emitted status messages in order, and whether the
network/LLM lookup was invoked. -/
structure GetPriceResult where
  price : ℚ
  state : PriceState
  statuses : List StatusMsg
  lookupInvoked : Bool
  deriving Repr, DecidableEq

/-- The refresh path of `get_api_price` (`transcriber.py:103-149`),
entered when the persisted cache is missing, corrupt, or stale;
`cached_price` is `cache["price_per_minute"] if cache else DEFAULT_PRICE`. -/
def refreshPrice (env : PriceEnv) (s : PriceState) (cached_price : ℚ) :
    GetPriceResult :=
  if ¬ env.hasApiKey ∨ ¬ env.hasInternet then
    { price := cached_price
      state := { s with cachedApiPrice := some cached_price }
      statuses := []
      lookupInvoked := false }
  else
    match env.lookup with
    | .raises =>
      { price := cached_price
        state :=
          { cachedApiPrice := some cached_price
            file := .entry ⟨cached_price, env.now⟩ }
        statuses := [.checkingPrice, .priceCheckFailed cached_price]
        lookupInvoked := true }
    | .reply parsed =>
      match parsed with
      | some new_price =>
        if mkRat 1 10000 ≤ new_price ∧ new_price ≤ 1 then
          { price := new_price
            state :=
              { cachedApiPrice := some new_price
                file := .entry ⟨new_price, env.now⟩ }
            statuses := [.checkingPrice, .priceUpdated new_price]
            lookupInvoked := true }
        else
          { price := cached_price
            state :=
              { cachedApiPrice := some cached_price
                file := .entry ⟨cached_price, env.now⟩ }
            statuses := [.checkingPrice, .couldNotParse cached_price]
            lookupInvoked := true }
      | none =>
        { price := cached_price
          state :=
            { cachedApiPrice := some cached_price
              file := .entry ⟨cached_price, env.now⟩ }
          statuses := [.checkingPrice, .couldNotParse cached_price]
          lookupInvoked := true }

/-- `get_api_price` (`transcriber.py:74-149`). Returns the in-memory
cached price when present; otherwise serves a fresh persisted entry, or
refreshes via `refreshPrice`. -/
def get_api_price (env : PriceEnv) (s : PriceState) : GetPriceResult :=
  match s.cachedApiPrice with
  | some p => { price := p, state := s, statuses := [], lookupInvoked := false }
  | none =>
    match s.file with
    | .entry e =>
      if env.now - e.last_checked < PRICE_CHECK_INTERVAL_SECS then
        { price := e.price_per_minute
          state := { s with cachedApiPrice := some e.price_per_minute }
          statuses := []
          lookupInvoked := false }
      else
        refreshPrice env s e.price_per_minute
    | _ => refreshPrice env s DEFAULT_PRICE

/-! ### The local model cache and `transcribe_locally` -/

/-- The triple `(model_size, device, compute_type)` that keys the cached
local model (`current_params` in `transcribe_locally`). -/
structure ModelParams where
  model_size : String
  device : String
  compute_type : String
  deriving Repr, DecidableEq, BEq

/-- A constructed `WhisperModel` instance: the parameters it was built
with, plus a build serial number distinguishing instances (a fresh
construction gets a fresh serial, so instance identity is observable). -/
structure WhisperModel where
  params : ModelParams
  buildId : ℕ
  deriving Repr, DecidableEq, BEq

/-- The module globals `_cached_local_model` and `_cached_model_params`,
plus the serial counter for fresh constructions. -/
structure ModelCacheState where
  cachedLocalModel : Option WhisperModel
  cachedModelParams : Option ModelParams
  nextBuildId : ℕ
  deriving Repr, DecidableEq

/-- `vad_parameters=dict(min_silence_duration_ms=500)`. -/
structure VadParams where
  min_silence_duration_ms : ℕ
  deriving Repr, DecidableEq

/-- One segment returned by `model.transcribe(...)`. -/
structure Segment where
  text : String
  deriving Repr, DecidableEq

/-- The exact call `transcribe_locally` makes into the faster-whisper
backend: which model instance, which audio, which `language=` argument,
and which VAD settings. -/
structure LocalCall where
  model : WhisperModel
  audio_path : String
  language : Option String
  vad_filter : Bool
  vad_parameters : Option VadParams
  deriving Repr, DecidableEq

/-- A local backend oracle: segments produced for a given call. -/
def LocalBackend : Type := LocalCall → List Segment

/-- What one `transcribe_locally` call returns and does: the concatenated
text, the updated cache state, the model instance used, whether a fresh
model was constructed, and the backend call that was issued. -/
structure LocalResult where
  text : String
  state : ModelCacheState
  modelUsed : WhisperModel
  rebuilt : Bool
  call : LocalCall
  deriving Repr, DecidableEq

/-- `transcribe_locally` (`transcriber.py:208-237`). Reuses the cached
model when `(model_size, device, compute_type)` matches the cached
triple, otherwise builds a fresh one; resolves `language="auto"` to
`language=None`; applies the 500 ms VAD filter when
`filter_background_noise` is set; concatenates segment texts with no
separator. -/
def transcribe_locally (backend : LocalBackend) (audio_path : String)
    (model_size device compute_type language : String)
    (filter_background_noise : Bool) (mc : ModelCacheState) : LocalResult :=
  let current_params : ModelParams := ⟨model_size, device, compute_type⟩
  let step : WhisperModel × ModelCacheState × Bool :=
    if mc.cachedLocalModel.isNone ∨ mc.cachedModelParams ≠ some current_params
    then
      let m : WhisperModel := ⟨current_params, mc.nextBuildId⟩
      (m, ⟨some m, some current_params, mc.nextBuildId + 1⟩, true)
    else
      (mc.cachedLocalModel.getD ⟨current_params, 0⟩, mc, false)
  let model := step.1
  let lang : Option String := if language = "auto" then none else some language
  let call : LocalCall :=
    if filter_background_noise then
      ⟨model, audio_path, lang, true, some ⟨500⟩⟩
    else
      ⟨model, audio_path, lang, false, none⟩
  let segments := backend call
  { text := String.join (segments.map Segment.text)
    state := step.2.1
    modelUsed := model
    rebuilt := step.2.2
    call := call }

/-- `clear_cached_model` (`transcriber.py:240-244`): drops both globals. -/
def clear_cached_model (mc : ModelCacheState) : ModelCacheState :=
  { mc with cachedLocalModel := none, cachedModelParams := none }

/-! ### The `Recorder` capture session -/

/-- Errors a `Recorder` method can raise in the model. `typeError` is
Python's `TypeError` (`float - NoneType` when `stop` runs with
`start_time = None`); `invalidStateError` and `deviceError` are the
error kinds the specification names — the source defines and raises no
such classes, the constructors exist so statements can mention them. -/
inductive RecError where
  | typeError
  | invalidStateError
  | deviceError
  deriving Repr, DecidableEq

/-- The `Recorder` object's fields (`transcriber.py:152-183`); frame
contents are irrelevant to the claims, so frames are counted. A stream
is modelled by its id. -/
structure Recorder where
  sample_rate : ℕ
  frames : ℕ
  recording : Bool
  stream : Option ℕ
  start_time : Option ℚ
  deriving Repr, DecidableEq

/-- A recorder together with the set of currently open (started, not yet
closed) `sd.InputStream` handles and a fresh-id counter — `start` opens
a stream and `stop` closes the one the recorder still references. -/
structure RecWorld where
  recorder : Recorder
  openStreams : List ℕ
  nextStreamId : ℕ
  deriving Repr, DecidableEq

/-- `Recorder.__init__(sample_rate=16000)`. -/
def Recorder.init : RecWorld :=
  { recorder :=
      { sample_rate := 16000
        frames := 0
        recording := false
        stream := none
        start_time := none }
    openStreams := []
    nextStreamId := 0 }

/-- `Recorder.start` (`transcriber.py:166-174`): resets frames, sets the
flags, and opens a new input stream — without any active-state check and
without stopping a previously opened stream, whose handle is simply
overwritten. -/
def Recorder.start (now : ℚ) (w : RecWorld) : RecWorld :=
  { recorder :=
      { w.recorder with
        frames := 0
        recording := true
        start_time := some now
        stream := some w.nextStreamId }
    openStreams := w.nextStreamId :: w.openStreams
    nextStreamId := w.nextStreamId + 1 }

/-- `Recorder.stop` (`transcriber.py:176-183`): clears the flag, computes
`time.time() - self.start_time` — a `TypeError` when `start` never ran —
then stops and closes the stream. On error the partially mutated state is
discarded (the claims concern only the raised error). -/
def Recorder.stop (now : ℚ) (w : RecWorld) : Except RecError (ℚ × RecWorld) :=
  match w.recorder.start_time with
  | none => .error .typeError
  | some t =>
    let duration := now - t
    match w.recorder.stream with
    | some sid =>
      .ok (duration,
        { recorder := { w.recorder with recording := false, stream := none }
          openStreams := w.openStreams.filter (· ≠ sid)
          nextStreamId := w.nextStreamId })
    | none =>
      .ok (duration, { w with recorder := { w.recorder with recording := false } })

/-! ### The orchestrator `transcribe_audio` -/

/-- `reason = "Local mode selected"` (`transcriber.py:270`). -/
def localModeReason : String := "Local mode selected"

/-- `reason = "No OPENAI_API_KEY set"` (`transcriber.py:274`). -/
def noKeyReason : String := "No OPENAI_API_KEY set"

/-- `reason = "No internet connection"` (`transcriber.py:278`). -/
def noInternetReason : String := "No internet connection"

/-- `f"API price (${api_price:.3f}/min) exceeds ${BLOCK_PRICE_PER_MINUTE:.2f}/min"`
(`transcriber.py:286`). -/
def priceBlockReason (api_price block : ℚ) : String :=
  "API price ($" ++ formatFixed 3 api_price ++ "/min) exceeds $" ++
    formatFixed 2 block ++ "/min"

/-- `f"API price is ${api_price:.3f}/min (threshold: ${WARN_PRICE_PER_MINUTE:.2f}/min)"`
(`transcriber.py:291`). -/
def priceWarnMsg (api_price warn : ℚ) : String :=
  "API price is $" ++ formatFixed 3 api_price ++ "/min (threshold: $" ++
    formatFixed 2 warn ++ "/min)"

/-- Environment for one `transcribe_audio` call: the decision inputs
(`OPENAI_API_KEY` presence, `has_internet()`, clock, price lookup), the
`WARN_PRICE_PER_MINUTE` / `BLOCK_PRICE_PER_MINUTE` module constants, and
`transcribe_with_api`'s outcome on this audio (`.error` carries
`str(e)`). -/
structure OrchEnv where
  hasApiKey : Bool
  hasInternet : Bool
  now : ℤ
  lookup : LookupResult
  warnPrice : ℚ
  blockPrice : ℚ
  remote : Except String String
  deriving Repr

/-- The tuple `transcribe_audio` returns
(`text, elapsed, used_api, api_price, warning, reason` — `elapsed` is
wall-clock timing and not modelled), plus the updated mutable state, the
emitted statuses, whether the price lookup ran, and `decidedApi`: the
value of `use_api` after the decision phase, i.e. whether the remote
backend was selected for the attempt. -/
structure TranscribeResult where
  text : String
  used_api : Bool
  api_price : Option ℚ
  warning : Option String
  reason : Option String
  priceState : PriceState
  modelState : ModelCacheState
  statuses : List StatusMsg
  lookupInvoked : Bool
  decidedApi : Bool
  deriving Repr, DecidableEq

/-- The decision phase of `transcribe_audio` (`transcriber.py:266-291`):
the successive `(use_api, reason)` updates for `force_local`, key
presence, connectivity and the price block, the lazy price check, and
the warning. Returns `((use_api, reason), warning, api_price, updated
price state, price statuses, lookup invoked)`. -/
def decidePhase (env : OrchEnv) (force_local : Bool) (ps : PriceState) :
    (Bool × Option String) × Option String × Option ℚ × PriceState ×
      List StatusMsg × Bool :=
  -- use_api = True; reason = None
  let step1 : Bool × Option String :=
    if force_local then (false, some localModeReason) else (true, none)
  let step2 : Bool × Option String :=
    if step1.1 ∧ ¬ env.hasApiKey then (false, some noKeyReason) else step1
  let step3 : Bool × Option String :=
    if step2.1 ∧ ¬ env.hasInternet then (false, some noInternetReason)
    else step2
  -- Lazy price check — only when using API
  let priced : Option ℚ × PriceState × List StatusMsg × Bool :=
    if step3.1 then
      let r := get_api_price ⟨env.hasApiKey, env.hasInternet, env.now, env.lookup⟩ ps
      (some r.price, r.state, r.statuses, r.lookupInvoked)
    else (none, ps, [], false)
  let step4 : Bool × Option String :=
    match step3.1, priced.1 with
    | true, some p =>
      if env.blockPrice ≤ p then (false, some (priceBlockReason p env.blockPrice))
      else step3
    | _, _ => step3
  let warning : Option String :=
    match step4.1, priced.1 with
    | true, some p =>
      if env.warnPrice ≤ p then some (priceWarnMsg p env.warnPrice) else none
    | _, _ => none
  (step4, warning, priced)

/-- `transcribe_audio` (`transcriber.py:247-315`): decision chain over
`force_local`, key presence, connectivity and price; warning computation;
remote attempt with local fallback on exception; otherwise direct local
transcription. -/
def transcribe_audio (env : OrchEnv) (backend : LocalBackend)
    (audio_path : String) (force_local : Bool)
    (model_size device compute_type language : String)
    (filter_background_noise : Bool)
    (ps : PriceState) (mc : ModelCacheState) : TranscribeResult :=
  let d := decidePhase env force_local ps
  let use_api := d.1.1
  let reason := d.1.2
  let warning := d.2.1
  let api_price := d.2.2.1
  let ps := d.2.2.2.1
  let priceStatuses := d.2.2.2.2.1
  let lookedUp := d.2.2.2.2.2
  if use_api then
    match env.remote with
    | .ok t =>
      { text := t
        used_api := true
        api_price := api_price
        warning := warning
        reason := reason
        priceState := ps
        modelState := mc
        statuses := priceStatuses ++ [.transcribingViaApi]
        lookupInvoked := lookedUp
        decidedApi := true }
    | .error e =>
      let lr := transcribe_locally backend audio_path model_size device
        compute_type language filter_background_noise mc
      { text := lr.text
        used_api := false
        api_price := api_price
        warning := warning
        reason := some e
        priceState := ps
        modelState := lr.state
        statuses := priceStatuses ++ [.transcribingViaApi, .apiFailedFallingBack]
        lookupInvoked := lookedUp
        decidedApi := true }
  else
    let lr := transcribe_locally backend audio_path model_size device
      compute_type language filter_background_noise mc
    { text := lr.text
      used_api := false
      api_price := api_price
      warning := warning
      reason := reason
      priceState := ps
      modelState := lr.state
      statuses := priceStatuses ++ [.transcribingLocally]
      lookupInvoked := lookedUp
      decidedApi := false }

/-- `cache["price_per_minute"] if cache else DEFAULT_PRICE`
(`transcriber.py:104`): the price retained when a refresh fails. -/
def cachedPriceOf : PriceFile → ℚ
  | .entry e => e.price_per_minute
  | _ => DEFAULT_PRICE

/-- The persisted cache does not avert a refresh: it is missing, corrupt,
or its timestamp is at least the refresh interval old
(`needs_refresh = True`, `transcriber.py:93-97`). -/
def FileStale (now : ℤ) : PriceFile → Prop
  | .entry e => PRICE_CHECK_INTERVAL_SECS ≤ now - e.last_checked
  | _ => True

instance (now : ℤ) : (pf : PriceFile) → Decidable (FileStale now pf)
  | .absent => isTrue trivial
  | .corrupt => isTrue trivial
  | .entry e =>
    inferInstanceAs (Decidable (PRICE_CHECK_INTERVAL_SECS ≤ now - e.last_checked))

/-! ### Helper lemmas: the price cache -/

/-- Every `refreshPrice` path memoizes its returned price in
`_cached_api_price`. -/
lemma refreshPrice_memo (env : PriceEnv) (s : PriceState) (c : ℚ) :
    (refreshPrice env s c).state.cachedApiPrice =
      some (refreshPrice env s c).price := by
  obtain ⟨k, i, now, lu⟩ := env
  cases k <;> cases i <;>
    cases lu with
    | raises => rfl
    | reply parsed =>
      cases parsed with
      | none => rfl
      | some c' =>
        by_cases hr : mkRat 1 10000 ≤ c' ∧ c' ≤ 1 <;>
          simp [refreshPrice, hr]

/-- A populated `_cached_api_price` is returned immediately: no lookup,
no status, no state change. -/
lemma get_api_price_cached (env : PriceEnv) (s : PriceState) (p : ℚ)
    (h : s.cachedApiPrice = some p) :
    get_api_price env s =
      { price := p, state := s, statuses := [], lookupInvoked := false } := by
  obtain ⟨cp, file⟩ := s
  simp only at h
  subst h
  rfl

/-- A persisted entry within the refresh interval is served as stored:
no lookup, no status, only the in-memory memo is written. -/
lemma get_api_price_fresh (env : PriceEnv) (s : PriceState)
    (e : PriceCacheEntry) (hm : s.cachedApiPrice = none)
    (hf : s.file = .entry e)
    (ht : env.now - e.last_checked < PRICE_CHECK_INTERVAL_SECS) :
    get_api_price env s =
      { price := e.price_per_minute
        state := { s with cachedApiPrice := some e.price_per_minute }
        statuses := []
        lookupInvoked := false } := by
  obtain ⟨cp, file⟩ := s
  simp only at hm hf
  subst hm hf
  simp [get_api_price, ht]

/-- With no memo and a stale (or missing, or corrupt) persisted cache,
`get_api_price` is the refresh path with the retained price. -/
lemma get_api_price_stale (env : PriceEnv) (s : PriceState)
    (hm : s.cachedApiPrice = none) (hs : FileStale env.now s.file) :
    get_api_price env s = refreshPrice env s (cachedPriceOf s.file) := by
  obtain ⟨cp, file⟩ := s
  simp only at hm
  subst hm
  cases file with
  | absent => rfl
  | corrupt => rfl
  | entry e =>
    simp only [FileStale] at hs
    simp [get_api_price, cachedPriceOf, not_lt.mpr hs]

/-! ### Helper lemmas: the decision phase -/

/-- `force_local` short-circuits everything: no price lookup, no state
change. -/
lemma decidePhase_force_local (env : OrchEnv) (ps : PriceState) :
    decidePhase env true ps =
      ((false, some localModeReason), none, none, ps, [], false) := rfl

/-- A missing `OPENAI_API_KEY` short-circuits before connectivity and
price. -/
lemma decidePhase_no_key (env : OrchEnv) (ps : PriceState)
    (hk : env.hasApiKey = false) :
    decidePhase env false ps =
      ((false, some noKeyReason), none, none, ps, [], false) := by
  obtain ⟨k, i, now, lu, w, b, r⟩ := env
  subst hk
  rfl

/-- A failed connectivity probe short-circuits before the price check. -/
lemma decidePhase_no_internet (env : OrchEnv) (ps : PriceState)
    (hk : env.hasApiKey = true) (hi : env.hasInternet = false) :
    decidePhase env false ps =
      ((false, some noInternetReason), none, none, ps, [], false) := by
  obtain ⟨k, i, now, lu, w, b, r⟩ := env
  subst hk hi
  rfl

/-- With key and connectivity, the decision is the price comparison
against the block threshold, and the warning the comparison against the
warn threshold. -/
lemma decidePhase_priced (env : OrchEnv) (ps : PriceState)
    (hk : env.hasApiKey = true) (hi : env.hasInternet = true) :
    decidePhase env false ps =
      let g := get_api_price ⟨true, true, env.now, env.lookup⟩ ps
      (if env.blockPrice ≤ g.price then
         (false, some (priceBlockReason g.price env.blockPrice))
       else (true, none),
       if env.blockPrice ≤ g.price then none
       else if env.warnPrice ≤ g.price then
         some (priceWarnMsg g.price env.warnPrice)
       else none,
       some g.price, g.state, g.statuses, g.lookupInvoked) := by
  obtain ⟨k, i, now, lu, w, b, r⟩ := env
  subst hk hi
  simp only [decidePhase]
  by_cases hb : b ≤ (get_api_price ⟨true, true, now, lu⟩ ps).price <;>
    by_cases hw : w ≤ (get_api_price ⟨true, true, now, lu⟩ ps).price <;>
    simp [hb, hw]

/-- When the decision keeps `use_api = True`, no step assigned a reason:
it is still `None`. -/
lemma decidePhase_api_reason_none (env : OrchEnv) (fl : Bool)
    (ps : PriceState) (h : (decidePhase env fl ps).1.1 = true) :
    (decidePhase env fl ps).1.2 = none := by
  obtain ⟨k, i, now, lu, w, b, r⟩ := env
  cases fl
  · cases k
    · rw [decidePhase_no_key _ _ rfl] at h
      exact absurd h (by simp)
    · cases i
      · rw [decidePhase_no_internet _ _ rfl rfl] at h
        exact absurd h (by simp)
      · rw [decidePhase_priced _ _ rfl rfl] at h ⊢
        by_cases hb :
            (⟨true, true, now, lu, w, b, r⟩ : OrchEnv).blockPrice ≤
              (get_api_price ⟨true, true, now, lu⟩ ps).price <;>
          simp [hb] at h ⊢
  · rw [decidePhase_force_local] at h
    exact absurd h (by simp)

/-- When the decision forces local, some disqualification reason was
assigned. -/
lemma decidePhase_local_reason_some (env : OrchEnv) (fl : Bool)
    (ps : PriceState) (h : (decidePhase env fl ps).1.1 = false) :
    ∃ s, (decidePhase env fl ps).1.2 = some s := by
  obtain ⟨k, i, now, lu, w, b, r⟩ := env
  cases fl
  · cases k
    · rw [decidePhase_no_key _ _ rfl]
      exact ⟨_, rfl⟩
    · cases i
      · rw [decidePhase_no_internet _ _ rfl rfl]
        exact ⟨_, rfl⟩
      · rw [decidePhase_priced _ _ rfl rfl] at h ⊢
        by_cases hb :
            (⟨true, true, now, lu, w, b, r⟩ : OrchEnv).blockPrice ≤
              (get_api_price ⟨true, true, now, lu⟩ ps).price <;>
          simp [hb] at h ⊢
  · rw [decidePhase_force_local]
    exact ⟨_, rfl⟩

/-! ### Helper lemmas: the attempt phase of `transcribe_audio` -/

/-- When the decision selected local, `transcribe_audio` runs local
transcription directly and reports the decision's reason. -/
lemma transcribe_audio_not_api (env : OrchEnv) (backend : LocalBackend)
    (audio_path : String) (force_local : Bool)
    (model_size device compute_type language : String)
    (filter_background_noise : Bool) (ps : PriceState) (mc : ModelCacheState)
    (h : (decidePhase env force_local ps).1.1 = false) :
    transcribe_audio env backend audio_path force_local model_size device
      compute_type language filter_background_noise ps mc =
    (let d := decidePhase env force_local ps
     let lr := transcribe_locally backend audio_path model_size device
       compute_type language filter_background_noise mc
     { text := lr.text
       used_api := false
       api_price := d.2.2.1
       warning := d.2.1
       reason := d.1.2
       priceState := d.2.2.2.1
       modelState := lr.state
       statuses := d.2.2.2.2.1 ++ [.transcribingLocally]
       lookupInvoked := d.2.2.2.2.2
       decidedApi := false }) := by
  simp [transcribe_audio, h]

/-- When the decision selected remote and the remote call succeeds,
`transcribe_audio` returns the API text with no reason. -/
lemma transcribe_audio_api_ok (env : OrchEnv) (backend : LocalBackend)
    (audio_path : String) (force_local : Bool)
    (model_size device compute_type language : String)
    (filter_background_noise : Bool) (ps : PriceState) (mc : ModelCacheState)
    (t : String)
    (h : (decidePhase env force_local ps).1.1 = true)
    (hr : env.remote = .ok t) :
    transcribe_audio env backend audio_path force_local model_size device
      compute_type language filter_background_noise ps mc =
    (let d := decidePhase env force_local ps
     { text := t
       used_api := true
       api_price := d.2.2.1
       warning := d.2.1
       reason := d.1.2
       priceState := d.2.2.2.1
       modelState := mc
       statuses := d.2.2.2.2.1 ++ [.transcribingViaApi]
       lookupInvoked := d.2.2.2.2.2
       decidedApi := true }) := by
  simp [transcribe_audio, h, hr]

/-- When the decision selected remote and the remote call raises,
`transcribe_audio` falls back to local transcription and stores the
exception text as the reason. -/
lemma transcribe_audio_api_err (env : OrchEnv) (backend : LocalBackend)
    (audio_path : String) (force_local : Bool)
    (model_size device compute_type language : String)
    (filter_background_noise : Bool) (ps : PriceState) (mc : ModelCacheState)
    (e : String)
    (h : (decidePhase env force_local ps).1.1 = true)
    (hr : env.remote = .error e) :
    transcribe_audio env backend audio_path force_local model_size device
      compute_type language filter_background_noise ps mc =
    (let d := decidePhase env force_local ps
     let lr := transcribe_locally backend audio_path model_size device
       compute_type language filter_background_noise mc
     { text := lr.text
       used_api := false
       api_price := d.2.2.1
       warning := d.2.1
       reason := some e
       priceState := d.2.2.2.1
       modelState := lr.state
       statuses := d.2.2.2.2.1 ++ [.transcribingViaApi, .apiFailedFallingBack]
       lookupInvoked := d.2.2.2.2.2
       decidedApi := true }) := by
  simp [transcribe_audio, h, hr]

/-! ### Helper lemmas: the local model cache -/

/-- The cross-call invariant of the two local-model globals: whatever
model is cached was built with the cached parameter triple. It holds
for the initial state (both `None`) and is preserved by every operation. -/
def ModelCacheState.Consistent (mc : ModelCacheState) : Prop :=
  ∀ m p, mc.cachedLocalModel = some m → mc.cachedModelParams = some p →
    m.params = p

/-- When the cached triple matches, the cached instance is reused and
nothing is rebuilt or written. -/
lemma transcribe_locally_reuse (backend : LocalBackend) (audio : String)
    (sz dev ct lang : String) (f : Bool) (mc : ModelCacheState)
    (m : WhisperModel)
    (h1 : mc.cachedLocalModel = some m)
    (h2 : mc.cachedModelParams = some ⟨sz, dev, ct⟩) :
    (transcribe_locally backend audio sz dev ct lang f mc).rebuilt = false ∧
    (transcribe_locally backend audio sz dev ct lang f mc).modelUsed = m ∧
    (transcribe_locally backend audio sz dev ct lang f mc).state = mc := by
  simp [transcribe_locally, h1, h2]

/-- When no model is cached or the cached triple differs, a fresh model
is built with the current triple and cached together with it. -/
lemma transcribe_locally_rebuild (backend : LocalBackend) (audio : String)
    (sz dev ct lang : String) (f : Bool) (mc : ModelCacheState)
    (h : mc.cachedLocalModel = none ∨
      mc.cachedModelParams ≠ some ⟨sz, dev, ct⟩) :
    (transcribe_locally backend audio sz dev ct lang f mc).rebuilt = true ∧
    (transcribe_locally backend audio sz dev ct lang f mc).modelUsed =
      ⟨⟨sz, dev, ct⟩, mc.nextBuildId⟩ ∧
    (transcribe_locally backend audio sz dev ct lang f mc).state =
      ⟨some ⟨⟨sz, dev, ct⟩, mc.nextBuildId⟩, some ⟨sz, dev, ct⟩,
        mc.nextBuildId + 1⟩ := by
  rcases h with h | h
  · simp [transcribe_locally, h]
  · simp [transcribe_locally, h]

/-- After any local transcription, the cache holds exactly the model
that was used and the current triple. -/
lemma transcribe_locally_state (backend : LocalBackend) (audio : String)
    (sz dev ct lang : String) (f : Bool) (mc : ModelCacheState) :
    (transcribe_locally backend audio sz dev ct lang f mc).state.cachedLocalModel =
      some (transcribe_locally backend audio sz dev ct lang f mc).modelUsed ∧
    (transcribe_locally backend audio sz dev ct lang f mc).state.cachedModelParams =
      some ⟨sz, dev, ct⟩ := by
  rcases hm : mc.cachedLocalModel with _ | m
  · have h := transcribe_locally_rebuild backend audio sz dev ct lang f mc
      (Or.inl hm)
    rw [h.2.1, h.2.2]
    exact ⟨rfl, rfl⟩
  · by_cases hp : mc.cachedModelParams = some ⟨sz, dev, ct⟩
    · have h := transcribe_locally_reuse backend audio sz dev ct lang f mc m
        hm hp
      rw [h.2.2, h.2.1]
      exact ⟨hm, hp⟩
    · have h := transcribe_locally_rebuild backend audio sz dev ct lang f mc
        (Or.inr hp)
      rw [h.2.1, h.2.2]
      exact ⟨rfl, rfl⟩

/-- On a consistent cache, the model actually used always carries the
current triple — never stale parameters. -/
lemma transcribe_locally_params (backend : LocalBackend) (audio : String)
    (sz dev ct lang : String) (f : Bool) (mc : ModelCacheState)
    (hwf : mc.Consistent) :
    (transcribe_locally backend audio sz dev ct lang f mc).modelUsed.params =
      ⟨sz, dev, ct⟩ := by
  rcases hm : mc.cachedLocalModel with _ | m
  · exact (transcribe_locally_rebuild backend audio sz dev ct lang f mc
      (Or.inl hm)).2.1 ▸ rfl
  · by_cases hp : mc.cachedModelParams = some ⟨sz, dev, ct⟩
    · have h := transcribe_locally_reuse backend audio sz dev ct lang f mc m
        hm hp
      rw [h.2.1]
      exact hwf m _ hm hp
    · exact (transcribe_locally_rebuild backend audio sz dev ct lang f mc
        (Or.inr hp)).2.1 ▸ rfl

/-- Consistency of the model cache is preserved by local transcription. -/
lemma transcribe_locally_consistent (backend : LocalBackend) (audio : String)
    (sz dev ct lang : String) (f : Bool) (mc : ModelCacheState)
    (hwf : mc.Consistent) :
    (transcribe_locally backend audio sz dev ct lang f mc).state.Consistent := by
  intro m p h1 h2
  have hs := transcribe_locally_state backend audio sz dev ct lang f mc
  rw [hs.1] at h1
  rw [hs.2] at h2
  cases h1
  cases h2
  exact transcribe_locally_params backend audio sz dev ct lang f mc hwf

/-- The backend call issued by `transcribe_locally`: resolved language,
VAD settings, and the concatenated text. -/
lemma transcribe_locally_call (backend : LocalBackend) (audio : String)
    (sz dev ct lang : String) (f : Bool) (mc : ModelCacheState) :
    (transcribe_locally backend audio sz dev ct lang f mc).call =
      ⟨(transcribe_locally backend audio sz dev ct lang f mc).modelUsed, audio,
        if lang = "auto" then none else some lang, f,
        if f then some ⟨500⟩ else none⟩ ∧
    (transcribe_locally backend audio sz dev ct lang f mc).text =
      String.join ((backend
        (transcribe_locally backend audio sz dev ct lang f mc).call).map
          Segment.text) := by
  cases f <;> exact ⟨rfl, rfl⟩

/-! ### Concrete fixtures for witnesses and counterexamples

Rationals are written with `mkRat` so that every fixture computation
reduces inside the kernel. -/

/-- A deterministic local backend producing two segments. -/
def fixBackend : LocalBackend := fun _ => [⟨"local "⟩, ⟨"text"⟩]

/-- Price state with no memo and no persisted file. -/
def psEmpty : PriceState := ⟨none, .absent⟩

/-- The initial model cache (both globals `None`). -/
def mcEmpty : ModelCacheState := ⟨none, none, 0⟩

/-- No `OPENAI_API_KEY`; everything else would permit remote. -/
def envNoKey : OrchEnv :=
  ⟨false, true, 0, .reply none, mkRat 1 100, mkRat 1 10, .ok "api"⟩

/-- Key and connectivity present; remote succeeds. -/
def envFull : OrchEnv :=
  ⟨true, true, 0, .reply none, mkRat 1 100, mkRat 1 10, .ok "api"⟩

/-- Key present but no connectivity. -/
def envNoNet : OrchEnv :=
  ⟨true, false, 0, .reply none, mkRat 1 100, mkRat 1 10, .ok "api"⟩

/-- Key and connectivity present; the remote call raises `"boom"`. -/
def envErr : OrchEnv :=
  ⟨true, true, 0, .reply none, mkRat 1 100, mkRat 1 10, .error "boom"⟩

/-- In-memory price 0.12 — at or above the 0.1 block threshold. -/
def psCached12 : PriceState := ⟨some (mkRat 12 100), .absent⟩

/-- In-memory price 0.006 — below the 0.01 warn threshold. -/
def psCachedLow : PriceState := ⟨some (mkRat 6 1000), .absent⟩

/-! ### Claim C1 -/

/-- C1, counterexample: with `force_local = False` and no
`OPENAI_API_KEY`, the fallback reason returned by `transcribe_audio` is
the literal `"No OPENAI_API_KEY set"` — not `"No API key set"` as the
claim states. -/
theorem noKey_reason_literal_counterexample :
    (transcribe_audio envNoKey fixBackend "a.wav" false "small" "cpu" "int8"
      "en" true psEmpty mcEmpty).reason = some "No OPENAI_API_KEY set" ∧
    "No OPENAI_API_KEY set" ≠ "No API key set" :=
  ⟨rfl, by decide⟩

/-- C1 (amended): the backend decision evaluates `force_local`,
credential presence, connectivity, and price in that strict order,
short-circuiting at the first disqualifying condition; each sets the
corresponding reason and selects the local backend; with
`force_local = false` and no key the reason is exactly
`"No OPENAI_API_KEY set"` (and the price lookup never runs). -/
theorem backend_decision_order
    (env : OrchEnv) (backend : LocalBackend) (audio : String) (fl : Bool)
    (sz dev ct lang : String) (f : Bool) (ps : PriceState)
    (mc : ModelCacheState) :
    (fl = true →
       (transcribe_audio env backend audio fl sz dev ct lang f ps mc).used_api = false ∧
       (transcribe_audio env backend audio fl sz dev ct lang f ps mc).reason =
         some localModeReason ∧
       (transcribe_audio env backend audio fl sz dev ct lang f ps mc).lookupInvoked = false ∧
       (transcribe_audio env backend audio fl sz dev ct lang f ps mc).text =
         (transcribe_locally backend audio sz dev ct lang f mc).text) ∧
    (fl = false → env.hasApiKey = false →
       (transcribe_audio env backend audio fl sz dev ct lang f ps mc).used_api = false ∧
       (transcribe_audio env backend audio fl sz dev ct lang f ps mc).reason =
         some noKeyReason ∧
       (transcribe_audio env backend audio fl sz dev ct lang f ps mc).lookupInvoked = false ∧
       (transcribe_audio env backend audio fl sz dev ct lang f ps mc).text =
         (transcribe_locally backend audio sz dev ct lang f mc).text) ∧
    (fl = false → env.hasApiKey = true → env.hasInternet = false →
       (transcribe_audio env backend audio fl sz dev ct lang f ps mc).used_api = false ∧
       (transcribe_audio env backend audio fl sz dev ct lang f ps mc).reason =
         some noInternetReason ∧
       (transcribe_audio env backend audio fl sz dev ct lang f ps mc).lookupInvoked = false ∧
       (transcribe_audio env backend audio fl sz dev ct lang f ps mc).text =
         (transcribe_locally backend audio sz dev ct lang f mc).text) ∧
    (fl = false → env.hasApiKey = true → env.hasInternet = true →
       env.blockPrice ≤
         (get_api_price ⟨true, true, env.now, env.lookup⟩ ps).price →
       (transcribe_audio env backend audio fl sz dev ct lang f ps mc).used_api = false ∧
       (transcribe_audio env backend audio fl sz dev ct lang f ps mc).reason =
         some (priceBlockReason
           (get_api_price ⟨true, true, env.now, env.lookup⟩ ps).price
           env.blockPrice) ∧
       (transcribe_audio env backend audio fl sz dev ct lang f ps mc).text =
         (transcribe_locally backend audio sz dev ct lang f mc).text) := by
  refine ⟨?_, ?_, ?_, ?_⟩
  · intro h
    subst h
    rw [transcribe_audio_not_api env backend audio true sz dev ct lang f ps mc
      (by simp [decidePhase_force_local])]
    simp [decidePhase_force_local]
  · intro h hk
    subst h
    rw [transcribe_audio_not_api env backend audio false sz dev ct lang f ps mc
      (by simp [decidePhase_no_key env ps hk])]
    simp [decidePhase_no_key env ps hk]
  · intro h hk hi
    subst h
    rw [transcribe_audio_not_api env backend audio false sz dev ct lang f ps mc
      (by simp [decidePhase_no_internet env ps hk hi])]
    simp [decidePhase_no_internet env ps hk hi]
  · intro h hk hi hb
    subst h
    rw [transcribe_audio_not_api env backend audio false sz dev ct lang f ps mc
      (by simp [decidePhase_priced env ps hk hi, hb])]
    simp [decidePhase_priced env ps hk hi, hb]

/-- C1, witness: the four disqualification branches at concrete inputs
(local mode; missing key; missing connectivity; blocking price 0.12). -/
theorem backend_decision_order_witness :
    (transcribe_audio envFull fixBackend "a.wav" true "small" "cpu" "int8"
      "en" true psEmpty mcEmpty).reason = some localModeReason ∧
    (transcribe_audio envNoKey fixBackend "a.wav" false "small" "cpu" "int8"
      "en" true psEmpty mcEmpty).reason = some noKeyReason ∧
    (transcribe_audio envNoNet fixBackend "a.wav" false "small" "cpu" "int8"
      "en" true psEmpty mcEmpty).reason = some noInternetReason ∧
    (transcribe_audio envFull fixBackend "a.wav" false "small" "cpu" "int8"
      "en" true psCached12 mcEmpty).reason =
      some (priceBlockReason (mkRat 12 100) (mkRat 1 10)) := by
  refine ⟨((backend_decision_order envFull fixBackend "a.wav" true "small"
      "cpu" "int8" "en" true psEmpty mcEmpty).1 rfl).2.1,
    ((backend_decision_order envNoKey fixBackend "a.wav" false "small"
      "cpu" "int8" "en" true psEmpty mcEmpty).2.1 rfl rfl).2.1,
    ((backend_decision_order envNoNet fixBackend "a.wav" false "small"
      "cpu" "int8" "en" true psEmpty mcEmpty).2.2.1 rfl rfl rfl).2.1,
    ((backend_decision_order envFull fixBackend "a.wav" false "small"
      "cpu" "int8" "en" true psCached12 mcEmpty).2.2.2 rfl rfl rfl
      (by decide)).2.1⟩

/-! ### Claim C2 -/

/-- C2: whenever the remote backend was selected and the remote call
raises, `transcribe_audio` runs local transcription on the same audio
with the supplied configuration and returns `used_api = false` with the
exception text as the fallback reason; no error propagates (the
orchestrator is a total function into `TranscribeResult`); and the
returned reason is `None` exactly when the remote call was selected and
succeeded. -/
theorem remote_failure_fallback
    (env : OrchEnv) (backend : LocalBackend) (audio : String) (fl : Bool)
    (sz dev ct lang : String) (f : Bool) (ps : PriceState)
    (mc : ModelCacheState) :
    (∀ e, env.remote = .error e →
       (transcribe_audio env backend audio fl sz dev ct lang f ps mc).decidedApi = true →
       (transcribe_audio env backend audio fl sz dev ct lang f ps mc).used_api = false ∧
       (transcribe_audio env backend audio fl sz dev ct lang f ps mc).reason = some e ∧
       (transcribe_audio env backend audio fl sz dev ct lang f ps mc).text =
         (transcribe_locally backend audio sz dev ct lang f mc).text ∧
       (transcribe_audio env backend audio fl sz dev ct lang f ps mc).modelState =
         (transcribe_locally backend audio sz dev ct lang f mc).state) ∧
    ((transcribe_audio env backend audio fl sz dev ct lang f ps mc).reason = none ↔
       (transcribe_audio env backend audio fl sz dev ct lang f ps mc).decidedApi = true ∧
       env.remote = .ok
         (transcribe_audio env backend audio fl sz dev ct lang f ps mc).text) := by
  by_cases hdp : (decidePhase env fl ps).1.1 = true
  · cases hr : env.remote with
    | ok t =>
      rw [transcribe_audio_api_ok env backend audio fl sz dev ct lang f ps mc
        t hdp hr]
      constructor
      · intro e hre
        cases hre
      · simp [decidePhase_api_reason_none env fl ps hdp, hr]
    | error e' =>
      rw [transcribe_audio_api_err env backend audio fl sz dev ct lang f ps mc
        e' hdp hr]
      constructor
      · intro e hre
        injection hre with h
        subst h
        exact fun _ => ⟨rfl, rfl, rfl, rfl⟩
      · simp [hr]
  · have hdf : (decidePhase env fl ps).1.1 = false := by
      simpa using hdp
    obtain ⟨s, hs⟩ := decidePhase_local_reason_some env fl ps hdf
    rw [transcribe_audio_not_api env backend audio fl sz dev ct lang f ps mc
      hdf]
    constructor
    · intro e hre hd
      exact absurd hd (by simp)
    · simp [hs]

/-- C2, witness: a remote failure `"boom"` at a permitting environment
(price 0.006) is recovered locally with reason `"boom"`. -/
theorem remote_failure_fallback_witness :
    (transcribe_audio envErr fixBackend "a.wav" false "small" "cpu" "int8"
      "en" true psCachedLow mcEmpty).used_api = false ∧
    (transcribe_audio envErr fixBackend "a.wav" false "small" "cpu" "int8"
      "en" true psCachedLow mcEmpty).reason = some "boom" ∧
    (transcribe_audio envErr fixBackend "a.wav" false "small" "cpu" "int8"
      "en" true psCachedLow mcEmpty).text =
      (transcribe_locally fixBackend "a.wav" "small" "cpu" "int8" "en" true
        mcEmpty).text := by
  have h := (remote_failure_fallback envErr fixBackend "a.wav" false "small"
    "cpu" "int8" "en" true psCachedLow mcEmpty).1 "boom" rfl (by decide)
  exact ⟨h.1, h.2.1, h.2.2.1⟩

/-! ### Claim C3 -/

/-- In-memory price 0.05 — between warn 0.01 and block 0.1. -/
def psCached5 : PriceState := ⟨some (mkRat 5 100), .absent⟩

/-- C3: once the `force_local`, credential and connectivity checks
passed, the resolved price `p` drives the decision: `p ≥ block`
selects local with a reason containing the price formatted to three
decimals; `warn ≤ p < block` selects remote and attaches a non-null
warning (also containing the 3-decimal price); `p < warn` selects remote
with no warning. -/
theorem price_threshold_policy
    (env : OrchEnv) (backend : LocalBackend) (audio : String)
    (sz dev ct lang : String) (f : Bool) (ps : PriceState)
    (mc : ModelCacheState) (p : ℚ)
    (hk : env.hasApiKey = true) (hi : env.hasInternet = true)
    (hp : (get_api_price ⟨true, true, env.now, env.lookup⟩ ps).price = p) :
    (env.blockPrice ≤ p →
       (transcribe_audio env backend audio false sz dev ct lang f ps mc).decidedApi = false ∧
       (transcribe_audio env backend audio false sz dev ct lang f ps mc).used_api = false ∧
       (transcribe_audio env backend audio false sz dev ct lang f ps mc).reason =
         some (priceBlockReason p env.blockPrice) ∧
       ∃ pre post, priceBlockReason p env.blockPrice =
         pre ++ (formatFixed 3 p ++ post)) ∧
    (env.warnPrice ≤ p → p < env.blockPrice →
       (transcribe_audio env backend audio false sz dev ct lang f ps mc).decidedApi = true ∧
       (transcribe_audio env backend audio false sz dev ct lang f ps mc).warning =
         some (priceWarnMsg p env.warnPrice) ∧
       ∃ pre post, priceWarnMsg p env.warnPrice =
         pre ++ (formatFixed 3 p ++ post)) ∧
    (p < env.warnPrice → p < env.blockPrice →
       (transcribe_audio env backend audio false sz dev ct lang f ps mc).decidedApi = true ∧
       (transcribe_audio env backend audio false sz dev ct lang f ps mc).warning = none) := by
  refine ⟨?_, ?_, ?_⟩
  · intro hb
    have hdp : (decidePhase env false ps).1.1 = false := by
      simp [decidePhase_priced env ps hk hi, hp, hb]
    rw [transcribe_audio_not_api env backend audio false sz dev ct lang f ps
      mc hdp]
    refine ⟨rfl, rfl, ?_, "API price ($", "/min) exceeds $" ++
      formatFixed 2 env.blockPrice ++ "/min", ?_⟩
    · simp [decidePhase_priced env ps hk hi, hp, hb]
    · simp [priceBlockReason, String.append_assoc]
  · intro hw hb
    have hbn : ¬ env.blockPrice ≤ p := not_le.mpr hb
    have hdp : (decidePhase env false ps).1.1 = true := by
      simp [decidePhase_priced env ps hk hi, hp, hbn]
    have hwcalc : (decidePhase env false ps).2.1 =
        some (priceWarnMsg p env.warnPrice) := by
      simp [decidePhase_priced env ps hk hi, hp, hbn, hw]
    cases hr : env.remote with
    | ok t =>
      rw [transcribe_audio_api_ok env backend audio false sz dev ct lang f ps
        mc t hdp hr]
      exact ⟨rfl, hwcalc, "API price is $", "/min (threshold: $" ++
        formatFixed 2 env.warnPrice ++ "/min)",
        by simp [priceWarnMsg, String.append_assoc]⟩
    | error e =>
      rw [transcribe_audio_api_err env backend audio false sz dev ct lang f ps
        mc e hdp hr]
      exact ⟨rfl, hwcalc, "API price is $", "/min (threshold: $" ++
        formatFixed 2 env.warnPrice ++ "/min)",
        by simp [priceWarnMsg, String.append_assoc]⟩
  · intro hw hb
    have hbn : ¬ env.blockPrice ≤ p := not_le.mpr hb
    have hwn : ¬ env.warnPrice ≤ p := not_le.mpr hw
    have hdp : (decidePhase env false ps).1.1 = true := by
      simp [decidePhase_priced env ps hk hi, hp, hbn]
    have hwcalc : (decidePhase env false ps).2.1 = none := by
      simp [decidePhase_priced env ps hk hi, hp, hbn, hwn]
    cases hr : env.remote with
    | ok t =>
      rw [transcribe_audio_api_ok env backend audio false sz dev ct lang f ps
        mc t hdp hr]
      exact ⟨rfl, hwcalc⟩
    | error e =>
      rw [transcribe_audio_api_err env backend audio false sz dev ct lang f ps
        mc e hdp hr]
      exact ⟨rfl, hwcalc⟩

/-- C3, witness: the three price bands at concrete inputs — blocking
0.12, warning 0.05, silent 0.006 (warn 0.01, block 0.1). -/
theorem price_threshold_policy_witness :
    (transcribe_audio envFull fixBackend "a.wav" false "small" "cpu" "int8"
      "en" true psCached12 mcEmpty).used_api = false ∧
    (transcribe_audio envFull fixBackend "a.wav" false "small" "cpu" "int8"
      "en" true psCached12 mcEmpty).reason =
      some (priceBlockReason (mkRat 12 100) (mkRat 1 10)) ∧
    (transcribe_audio envFull fixBackend "a.wav" false "small" "cpu" "int8"
      "en" true psCached5 mcEmpty).decidedApi = true ∧
    (transcribe_audio envFull fixBackend "a.wav" false "small" "cpu" "int8"
      "en" true psCached5 mcEmpty).warning =
      some (priceWarnMsg (mkRat 5 100) (mkRat 1 100)) ∧
    (transcribe_audio envFull fixBackend "a.wav" false "small" "cpu" "int8"
      "en" true psCachedLow mcEmpty).decidedApi = true ∧
    (transcribe_audio envFull fixBackend "a.wav" false "small" "cpu" "int8"
      "en" true psCachedLow mcEmpty).warning = none := by
  have h1 := (price_threshold_policy envFull fixBackend "a.wav" "small" "cpu"
    "int8" "en" true psCached12 mcEmpty (mkRat 12 100) rfl rfl rfl).1
    (by decide)
  have h2 := (price_threshold_policy envFull fixBackend "a.wav" "small" "cpu"
    "int8" "en" true psCached5 mcEmpty (mkRat 5 100) rfl rfl rfl).2.1
    (by decide) (by decide)
  have h3 := (price_threshold_policy envFull fixBackend "a.wav" "small" "cpu"
    "int8" "en" true psCachedLow mcEmpty (mkRat 6 1000) rfl rfl rfl).2.2
    (by decide) (by decide)
  exact ⟨h1.2.1, h1.2.2.1, h2.1, h2.2.1, h3.1, h3.2⟩

/-! ### Claim C4 -/

/-- Refresh pre-check environment: no `OPENAI_API_KEY`, so the lookup is
skipped outright. -/
def envPre : PriceEnv := ⟨false, true, 10000000, .reply (some (mkRat 1 2))⟩

/-- Persisted entry with price 0.004, checked at time 0 — long stale by
time 10000000. -/
def sStale : PriceState := ⟨none, .entry ⟨mkRat 4 1000, 0⟩⟩

/-- C4, counterexample: with a stale persisted entry and no API key
configured, `get_api_price` returns the retained price but leaves the
persisted cache untouched (the old timestamp 0 stands, not a fresh one)
and emits no status — contradicting the claim that every lookup failure
rewrites the cache with a fresh timestamp and reports through the status
callback. -/
theorem precheck_no_rewrite_counterexample :
    (get_api_price envPre sStale).price = mkRat 4 1000 ∧
    (get_api_price envPre sStale).state.file = .entry ⟨mkRat 4 1000, 0⟩ ∧
    (get_api_price envPre sStale).statuses = [] ∧
    PriceFile.entry ⟨mkRat 4 1000, (0 : ℤ)⟩ ≠
      .entry ⟨mkRat 4 1000, envPre.now⟩ :=
  ⟨rfl, rfl, rfl, by decide⟩

/-- C4 (amended): on the refresh path, a candidate from the lookup is
accepted only if it lies in `[0.0001, 1.0]`; out-of-range or unparseable
candidates and exceptions during the lookup call retain the previous (or
default) price, rewrite the persisted cache with that retained price and
a fresh timestamp, and report the failure only through the status
callback (never by raising — the function is total); but when the
refresh is skipped because credentials or connectivity are missing, the
retained price is returned and memoized in memory without rewriting the
persisted cache and without any status message. -/
theorem refresh_failure_retention
    (env : PriceEnv) (s : PriceState)
    (hmem : s.cachedApiPrice = none) (hstale : FileStale env.now s.file) :
    (∀ c, env.hasApiKey = true → env.hasInternet = true →
       env.lookup = .reply (some c) →
       (mkRat 1 10000 ≤ c ∧ c ≤ 1 →
          (get_api_price env s).price = c ∧
          (get_api_price env s).state.file = .entry ⟨c, env.now⟩) ∧
       (¬ (mkRat 1 10000 ≤ c ∧ c ≤ 1) →
          (get_api_price env s).price = cachedPriceOf s.file ∧
          (get_api_price env s).state.file =
            .entry ⟨cachedPriceOf s.file, env.now⟩ ∧
          (get_api_price env s).statuses =
            [.checkingPrice, .couldNotParse (cachedPriceOf s.file)])) ∧
    (env.hasApiKey = true → env.hasInternet = true →
       env.lookup = .reply none →
       (get_api_price env s).price = cachedPriceOf s.file ∧
       (get_api_price env s).state.file =
         .entry ⟨cachedPriceOf s.file, env.now⟩ ∧
       (get_api_price env s).statuses =
         [.checkingPrice, .couldNotParse (cachedPriceOf s.file)]) ∧
    (env.hasApiKey = true → env.hasInternet = true → env.lookup = .raises →
       (get_api_price env s).price = cachedPriceOf s.file ∧
       (get_api_price env s).state.file =
         .entry ⟨cachedPriceOf s.file, env.now⟩ ∧
       (get_api_price env s).statuses =
         [.checkingPrice, .priceCheckFailed (cachedPriceOf s.file)]) ∧
    ((env.hasApiKey = false ∨ env.hasInternet = false) →
       (get_api_price env s).price = cachedPriceOf s.file ∧
       (get_api_price env s).state.file = s.file ∧
       (get_api_price env s).statuses = [] ∧
       (get_api_price env s).lookupInvoked = false) := by
  rw [get_api_price_stale env s hmem hstale]
  refine ⟨?_, ?_, ?_, ?_⟩
  · intro c hk hi hl
    constructor
    · intro hr
      simp only [refreshPrice, hk, hi, hl]
      rw [if_neg (by simp), if_pos hr]
      exact ⟨rfl, rfl⟩
    · intro hr
      simp only [refreshPrice, hk, hi, hl]
      rw [if_neg (by simp), if_neg hr]
      exact ⟨rfl, rfl, rfl⟩
  · intro hk hi hl
    simp [refreshPrice, hk, hi, hl]
  · intro hk hi hl
    simp [refreshPrice, hk, hi, hl]
  · intro h
    rcases h with hk | hi
    · simp [refreshPrice, hk]
    · simp [refreshPrice, hi]

/-- Accepted candidate 0.008 from the lookup. -/
def envOkCand : PriceEnv := ⟨true, true, 10000000, .reply (some (mkRat 8 1000))⟩

/-- Out-of-range candidate 5.0 from the lookup. -/
def envBigCand : PriceEnv := ⟨true, true, 10000000, .reply (some (mkRat 5 1))⟩

/-- The lookup call raises. -/
def envRaise : PriceEnv := ⟨true, true, 10000000, .raises⟩

/-- C4, witness: acceptance of 0.008, rejection of 5.0 with retention and
rewrite, status on a raising lookup, and the skipped-lookup path. -/
theorem refresh_failure_retention_witness :
    (get_api_price envOkCand sStale).price = mkRat 8 1000 ∧
    (get_api_price envBigCand sStale).price = mkRat 4 1000 ∧
    (get_api_price envBigCand sStale).state.file =
      .entry ⟨mkRat 4 1000, 10000000⟩ ∧
    (get_api_price envRaise sStale).statuses =
      [.checkingPrice, .priceCheckFailed (mkRat 4 1000)] ∧
    (get_api_price envPre sStale).lookupInvoked = false := by
  have h1 := ((refresh_failure_retention envOkCand sStale rfl
    (by decide)).1 (mkRat 8 1000) rfl rfl rfl).1 (by decide)
  have h2 := ((refresh_failure_retention envBigCand sStale rfl
    (by decide)).1 (mkRat 5 1) rfl rfl rfl).2 (by decide)
  have h3 := (refresh_failure_retention envRaise sStale rfl
    (by decide)).2.2.1 rfl rfl rfl
  have h4 := (refresh_failure_retention envPre sStale rfl
    (by decide)).2.2.2 (Or.inl rfl)
  exact ⟨h1.1, h2.1, h2.2.1, h3.2.2, h4.2.2.2⟩

/-! ### Claim C5 -/

/-- C5: the lookup runs at most once per process — every `get_api_price`
call memoizes its result in `_cached_api_price`, a populated memo is
returned without invoking the lookup (and without any other effect), and
a persisted entry within the 7-day interval is returned without invoking
the lookup. -/
theorem lookup_at_most_once (env : PriceEnv) (s : PriceState) :
    (get_api_price env s).state.cachedApiPrice =
      some (get_api_price env s).price ∧
    (∀ p, s.cachedApiPrice = some p →
       get_api_price env s =
         { price := p, state := s, statuses := [], lookupInvoked := false }) ∧
    (∀ e, s.cachedApiPrice = none → s.file = .entry e →
       env.now - e.last_checked < PRICE_CHECK_INTERVAL_SECS →
       (get_api_price env s).price = e.price_per_minute ∧
       (get_api_price env s).lookupInvoked = false) := by
  refine ⟨?_, ?_, ?_⟩
  · rcases hc : s.cachedApiPrice with _ | p
    · rcases hf : s.file with _ | _ | e
      · rw [get_api_price_stale env s hc (by rw [hf]; exact True.intro)]
        exact refreshPrice_memo env s _
      · rw [get_api_price_stale env s hc (by rw [hf]; exact True.intro)]
        exact refreshPrice_memo env s _
      · by_cases ht : env.now - e.last_checked < PRICE_CHECK_INTERVAL_SECS
        · rw [get_api_price_fresh env s e hc hf ht]
        · rw [get_api_price_stale env s hc
            (by rw [hf]; exact not_lt.mp ht)]
          exact refreshPrice_memo env s _
    · rw [get_api_price_cached env s p hc]
      exact hc
  · intro p h
    exact get_api_price_cached env s p h
  · intro e hm hf ht
    rw [get_api_price_fresh env s e hm hf ht]
    exact ⟨rfl, rfl⟩

/-- A raising lookup shortly after time 0. -/
def envRaiseSoon : PriceEnv := ⟨true, true, 100, .raises⟩

/-- Persisted entry with price 0.02, checked at time 0 — fresh at time
100. -/
def sFresh : PriceState := ⟨none, .entry ⟨mkRat 2 100, 0⟩⟩

/-- C5, witness: a populated memo (0.12) short-circuits a raising lookup
entirely, and a fresh persisted entry (0.02) is served without invoking
the lookup. -/
theorem lookup_at_most_once_witness :
    get_api_price envRaise psCached12 =
      { price := mkRat 12 100, state := psCached12, statuses := []
        lookupInvoked := false } ∧
    (get_api_price envRaiseSoon sFresh).price = mkRat 2 100 ∧
    (get_api_price envRaiseSoon sFresh).lookupInvoked = false := by
  have h1 := (lookup_at_most_once envRaise psCached12).2.1 (mkRat 12 100) rfl
  have h2 := (lookup_at_most_once envRaiseSoon sFresh).2.2 ⟨mkRat 2 100, 0⟩
    rfl rfl (by decide)
  exact ⟨h1, h2.1, h2.2⟩

/-! ### Claim C9 -/

/-- C9: the `[0.0001, 1.0]` range validation applies only to freshly
looked-up candidates: a persisted entry within the refresh interval is
served exactly as stored, without validation and without lookup, and the
blocking-threshold comparison then consumes that unvalidated price. -/
theorem fresh_entry_served_unvalidated
    (env : OrchEnv) (backend : LocalBackend) (audio : String)
    (sz dev ct lang : String) (f : Bool) (ps : PriceState)
    (mc : ModelCacheState) (e : PriceCacheEntry)
    (hmem : ps.cachedApiPrice = none) (hfile : ps.file = .entry e)
    (hfresh : env.now - e.last_checked < PRICE_CHECK_INTERVAL_SECS)
    (hk : env.hasApiKey = true) (hi : env.hasInternet = true) :
    (get_api_price ⟨true, true, env.now, env.lookup⟩ ps).price =
      e.price_per_minute ∧
    (get_api_price ⟨true, true, env.now, env.lookup⟩ ps).lookupInvoked =
      false ∧
    (env.blockPrice ≤ e.price_per_minute →
       (transcribe_audio env backend audio false sz dev ct lang f ps mc).used_api = false ∧
       (transcribe_audio env backend audio false sz dev ct lang f ps mc).decidedApi = false ∧
       (transcribe_audio env backend audio false sz dev ct lang f ps mc).reason =
         some (priceBlockReason e.price_per_minute env.blockPrice) ∧
       (transcribe_audio env backend audio false sz dev ct lang f ps mc).lookupInvoked = false) := by
  have hg := get_api_price_fresh ⟨true, true, env.now, env.lookup⟩ ps e hmem
    hfile hfresh
  refine ⟨by rw [hg], by rw [hg], ?_⟩
  intro hb
  have hp : (get_api_price ⟨true, true, env.now, env.lookup⟩ ps).price =
      e.price_per_minute := by rw [hg]
  have hdp : (decidePhase env false ps).1.1 = false := by
    simp [decidePhase_priced env ps hk hi, hp, hb]
  rw [transcribe_audio_not_api env backend audio false sz dev ct lang f ps
    mc hdp]
  refine ⟨rfl, rfl, ?_, ?_⟩
  · simp [decidePhase_priced env ps hk hi, hp, hb]
  · simp [decidePhase_priced env ps hk hi, hg]

/-- Persisted entry with the far out-of-range price 50.0, freshly
checked at time 0. -/
def ps50 : PriceState := ⟨none, .entry ⟨mkRat 50 1, 0⟩⟩

/-- C9, witness: the persisted price 50.0 is served unvalidated and then
blocks the remote backend. -/
theorem fresh_entry_served_unvalidated_witness :
    (get_api_price ⟨true, true, (0 : ℤ), .reply none⟩ ps50).price =
      mkRat 50 1 ∧
    (get_api_price ⟨true, true, (0 : ℤ), .reply none⟩ ps50).lookupInvoked =
      false ∧
    (transcribe_audio envFull fixBackend "a.wav" false "small" "cpu" "int8"
      "en" true ps50 mcEmpty).used_api = false ∧
    (transcribe_audio envFull fixBackend "a.wav" false "small" "cpu" "int8"
      "en" true ps50 mcEmpty).reason =
      some (priceBlockReason (mkRat 50 1) (mkRat 1 10)) := by
  have h := fresh_entry_served_unvalidated envFull fixBackend "a.wav" "small"
    "cpu" "int8" "en" true ps50 mcEmpty ⟨mkRat 50 1, 0⟩ rfl rfl (by decide)
    rfl rfl
  have h2 := h.2.2 (by decide)
  exact ⟨h.1, h.2.1, h2.1, h2.2.2.1⟩

/-! ### Claim C6 -/

/-- C6: for two successive local transcriptions with the identical
`(model_size, device, compute_type)` triple, the cached model instance
is reused without rebuilding; any differing triple, or an invalidation
via `clear_cached_model`, forces a fresh build with the current triple;
and on a consistent cache the model used always carries the current
triple, never a stale one (consistency is preserved). -/
theorem model_cache_reuse_and_rebuild
    (backend : LocalBackend) (audio₁ audio₂ : String)
    (sz dev ct lang₁ lang₂ : String) (f₁ f₂ : Bool) (mc : ModelCacheState)
    (hwf : mc.Consistent) :
    (transcribe_locally backend audio₂ sz dev ct lang₂ f₂
       (transcribe_locally backend audio₁ sz dev ct lang₁ f₁ mc).state).rebuilt = false ∧
    (transcribe_locally backend audio₂ sz dev ct lang₂ f₂
       (transcribe_locally backend audio₁ sz dev ct lang₁ f₁ mc).state).modelUsed =
      (transcribe_locally backend audio₁ sz dev ct lang₁ f₁ mc).modelUsed ∧
    (transcribe_locally backend audio₁ sz dev ct lang₁ f₁ mc).modelUsed.params =
      ⟨sz, dev, ct⟩ ∧
    (∀ audio₃ lang₃ f₃ sz' dev' ct',
       ModelParams.mk sz' dev' ct' ≠ ⟨sz, dev, ct⟩ →
       (transcribe_locally backend audio₃ sz' dev' ct' lang₃ f₃
          (transcribe_locally backend audio₁ sz dev ct lang₁ f₁ mc).state).rebuilt = true ∧
       (transcribe_locally backend audio₃ sz' dev' ct' lang₃ f₃
          (transcribe_locally backend audio₁ sz dev ct lang₁ f₁ mc).state).modelUsed.params =
         ⟨sz', dev', ct'⟩) ∧
    (transcribe_locally backend audio₂ sz dev ct lang₂ f₂
       (clear_cached_model
         (transcribe_locally backend audio₁ sz dev ct lang₁ f₁ mc).state)).rebuilt = true ∧
    (transcribe_locally backend audio₁ sz dev ct lang₁ f₁ mc).state.Consistent := by
  have hs := transcribe_locally_state backend audio₁ sz dev ct lang₁ f₁ mc
  have hcons := transcribe_locally_consistent backend audio₁ sz dev ct lang₁
    f₁ mc hwf
  have hreuse := transcribe_locally_reuse backend audio₂ sz dev ct lang₂ f₂
    _ _ hs.1 hs.2
  refine ⟨hreuse.1, hreuse.2.1,
    transcribe_locally_params backend audio₁ sz dev ct lang₁ f₁ mc hwf,
    ?_, ?_, hcons⟩
  · intro audio₃ lang₃ f₃ sz' dev' ct' hne
    have hrb := transcribe_locally_rebuild backend audio₃ sz' dev' ct' lang₃
      f₃ _ (Or.inr (by
        rw [hs.2]
        intro hcontra
        injection hcontra with hh
        exact hne hh.symm))
    exact ⟨hrb.1, by rw [hrb.2.1]⟩
  · exact (transcribe_locally_rebuild backend audio₂ sz dev ct lang₂ f₂
      (clear_cached_model _) (Or.inl rfl)).1

/-- C6, witness: from the empty cache, (small, cpu, int8) builds instance
0, an identical call reuses it, switching to tiny rebuilds, and so does a
call after `clear_cached_model`. -/
theorem model_cache_reuse_and_rebuild_witness :
    (transcribe_locally fixBackend "b.wav" "small" "cpu" "int8" "en" true
      (transcribe_locally fixBackend "a.wav" "small" "cpu" "int8" "en" true
        mcEmpty).state).rebuilt = false ∧
    (transcribe_locally fixBackend "b.wav" "small" "cpu" "int8" "en" true
      (transcribe_locally fixBackend "a.wav" "small" "cpu" "int8" "en" true
        mcEmpty).state).modelUsed =
      ⟨⟨"small", "cpu", "int8"⟩, 0⟩ ∧
    (transcribe_locally fixBackend "c.wav" "tiny" "cpu" "int8" "en" true
      (transcribe_locally fixBackend "a.wav" "small" "cpu" "int8" "en" true
        mcEmpty).state).rebuilt = true ∧
    (transcribe_locally fixBackend "b.wav" "small" "cpu" "int8" "en" true
      (clear_cached_model
        (transcribe_locally fixBackend "a.wav" "small" "cpu" "int8" "en" true
          mcEmpty).state)).rebuilt = true := by
  have h := model_cache_reuse_and_rebuild fixBackend "a.wav" "b.wav" "small"
    "cpu" "int8" "en" "en" true true mcEmpty (fun m p hm hp => by cases hm)
  refine ⟨h.1, by rw [h.2.1]; rfl, (h.2.2.2.1 "c.wav" "en" true "tiny" "cpu"
    "int8" (by decide)).1, h.2.2.2.2.1⟩

/-! ### Claim C7 -/

/-- C7: local transcription resolves `language="auto"` to the backend
auto-detect mode (`language=None`) and passes any other code unchanged;
the noise filter flag turns VAD filtering with a 500 ms minimum-silence
threshold on or entirely off; and the returned text is the concatenation
of the backend segment texts in order with no separator. -/
theorem local_language_vad_concat
    (backend : LocalBackend) (audio : String)
    (sz dev ct lang : String) (f : Bool) (mc : ModelCacheState) :
    (lang = "auto" →
       (transcribe_locally backend audio sz dev ct lang f mc).call.language = none) ∧
    (lang ≠ "auto" →
       (transcribe_locally backend audio sz dev ct lang f mc).call.language = some lang) ∧
    (f = true →
       (transcribe_locally backend audio sz dev ct lang f mc).call.vad_filter = true ∧
       (transcribe_locally backend audio sz dev ct lang f mc).call.vad_parameters =
         some ⟨500⟩) ∧
    (f = false →
       (transcribe_locally backend audio sz dev ct lang f mc).call.vad_filter = false ∧
       (transcribe_locally backend audio sz dev ct lang f mc).call.vad_parameters = none) ∧
    (transcribe_locally backend audio sz dev ct lang f mc).text =
      String.join ((backend
        (transcribe_locally backend audio sz dev ct lang f mc).call).map
          Segment.text) := by
  have hc := transcribe_locally_call backend audio sz dev ct lang f mc
  refine ⟨?_, ?_, ?_, ?_, hc.2⟩
  · intro h
    rw [hc.1]
    simp [h]
  · intro h
    rw [hc.1]
    simp [h]
  · intro h
    rw [hc.1]
    simp [h]
  · intro h
    rw [hc.1]
    simp [h]

/-- C7, witness: `"auto"` maps to `none`, `"en"` passes through, the
noise filter toggles the 500 ms VAD parameters, and the two fixture
segments concatenate with no separator. -/
theorem local_language_vad_concat_witness :
    (transcribe_locally fixBackend "a.wav" "small" "cpu" "int8" "auto" true
      mcEmpty).call.language = none ∧
    (transcribe_locally fixBackend "a.wav" "small" "cpu" "int8" "en" true
      mcEmpty).call.language = some "en" ∧
    (transcribe_locally fixBackend "a.wav" "small" "cpu" "int8" "en" true
      mcEmpty).call.vad_parameters = some ⟨500⟩ ∧
    (transcribe_locally fixBackend "a.wav" "small" "cpu" "int8" "en" false
      mcEmpty).call.vad_parameters = none ∧
    (transcribe_locally fixBackend "a.wav" "small" "cpu" "int8" "en" true
      mcEmpty).text = "local text" := by
  refine ⟨(local_language_vad_concat fixBackend "a.wav" "small" "cpu" "int8"
      "auto" true mcEmpty).1 rfl,
    (local_language_vad_concat fixBackend "a.wav" "small" "cpu" "int8" "en"
      true mcEmpty).2.1 (by decide),
    ((local_language_vad_concat fixBackend "a.wav" "small" "cpu" "int8" "en"
      true mcEmpty).2.2.1 rfl).2,
    ((local_language_vad_concat fixBackend "a.wav" "small" "cpu" "int8" "en"
      false mcEmpty).2.2.2.1 rfl).2,
    ?_⟩
  rw [(local_language_vad_concat fixBackend "a.wav" "small" "cpu" "int8" "en"
    true mcEmpty).2.2.2.2]
  rfl

/-! ### Claim C8 -/

/-- C8, counterexample: `stop()` with no prior `start()` fails with
Python's `TypeError` (from `time.time() - None`), not
`InvalidStateError`; and `start()` while a recording is active does not
fail at all — it starts a second capture, leaving two streams open. -/
theorem recorder_misuse_counterexample :
    Recorder.stop 5 Recorder.init = .error .typeError ∧
    RecError.typeError ≠ RecError.invalidStateError ∧
    (Recorder.start 2 (Recorder.start 1 Recorder.init)).recorder.recording = true ∧
    (Recorder.start 2 (Recorder.start 1 Recorder.init)).openStreams.length = 2 :=
  ⟨rfl, by decide, rfl, rfl⟩

/-- C8 (amended): `stop()` when no recording was ever started fails, but
with a `TypeError` from subtracting the unset start time — the code
never raises `InvalidStateError` or `DeviceError` (neither class exists
in the source); and `start()` while already active succeeds: it resets
the frame buffer, opens a new stream, and leaves every previously opened
stream open. -/
theorem recorder_start_stop_behavior (now : ℚ) (w : RecWorld) :
    (w.recorder.start_time = none →
       Recorder.stop now w = .error .typeError) ∧
    (Recorder.stop now w ≠ .error .invalidStateError) ∧
    (Recorder.stop now w ≠ .error .deviceError) ∧
    ((Recorder.start now w).recorder.recording = true ∧
     (Recorder.start now w).recorder.frames = 0 ∧
     (Recorder.start now w).recorder.stream = some w.nextStreamId ∧
     (Recorder.start now w).openStreams = w.nextStreamId :: w.openStreams) := by
  refine ⟨?_, ?_, ?_, rfl, rfl, rfl, rfl⟩
  · intro h
    simp [Recorder.stop, h]
  · rcases h : w.recorder.start_time with _ | t
    · simp [Recorder.stop, h]
    · rcases hs : w.recorder.stream with _ | sid <;>
        simp [Recorder.stop, h, hs]
  · rcases h : w.recorder.start_time with _ | t
    · simp [Recorder.stop, h]
    · rcases hs : w.recorder.stream with _ | sid <;>
        simp [Recorder.stop, h, hs]

/-- C8, witness: a fresh recorder's `stop` raises `TypeError`, and two
consecutive `start`s leave both streams 0 and 1 open. -/
theorem recorder_start_stop_behavior_witness :
    Recorder.stop 5 Recorder.init = .error .typeError ∧
    (Recorder.start 2 (Recorder.start 1 Recorder.init)).recorder.recording = true ∧
    (Recorder.start 2 (Recorder.start 1 Recorder.init)).openStreams =
      [1, 0] := by
  refine ⟨(recorder_start_stop_behavior 5 Recorder.init).1 rfl,
    ((recorder_start_stop_behavior 2 (Recorder.start 1 Recorder.init)).2.2.2).1,
    ?_⟩
  rw [((recorder_start_stop_behavior 2
    (Recorder.start 1 Recorder.init)).2.2.2).2.2.2]
  rfl

/-! ### Claim C10 -/

/-- C10: the price warning is computed before the remote attempt and not
cleared on failure — with price 0.05 in the warn band and a remote call
raising `"boom"`, the result simultaneously has `used_api = false`, the
exception text as fallback reason, and the non-null warning. -/
theorem warning_survives_remote_failure :
    (transcribe_audio envErr fixBackend "a.wav" false "small" "cpu" "int8"
      "en" true psCached5 mcEmpty).used_api = false ∧
    (transcribe_audio envErr fixBackend "a.wav" false "small" "cpu" "int8"
      "en" true psCached5 mcEmpty).decidedApi = true ∧
    (transcribe_audio envErr fixBackend "a.wav" false "small" "cpu" "int8"
      "en" true psCached5 mcEmpty).reason = some "boom" ∧
    (transcribe_audio envErr fixBackend "a.wav" false "small" "cpu" "int8"
      "en" true psCached5 mcEmpty).warning =
      some (priceWarnMsg (mkRat 5 100) (mkRat 1 100)) :=
  ⟨rfl, rfl, rfl, rfl⟩

end VoiceToText
